import Mathlib

/-!
Verification of the RenderingResourceManager control plane.

The Python sources under
`rendering_resource_manager_service/` are shallowly embedded below:

* `config/models.py`             → `RenderingResourceSettings`, `SystemGlobalSettings`
* `config/management/rendering_resource_settings_manager.py`
                                 → `RenderingResourceSettingsManager.*`
* `session/management/session_manager.py` → `SessionManager.*`
* `session/management/job_manager.py`     → `JobManager.*`

Database rows are modelled per key: since every operation studied here
touches a single `session_id` (resp. settings `id`), the store is the
`Option` of the row under that key.  Django's `Model.save()` is an
upsert (it issues an UPDATE and falls back to INSERT when no row was
updated); `Model.delete()` removes the row and, on the Django 1.6-1.8
generation this code base pins (its `wsgi.py` is the 1.7 template, the
views use DRF 2.x APIs), also clears the instance's in-memory primary
key, so a `save()` right after a `delete()` attempts an INSERT with a
NULL primary key and raises `IntegrityError`.

Calls into external collaborators (the saga cluster library, the local
process manager, HTTP probes, the system clocks) are modelled as oracle
parameters: a call that can raise a Python exception is an
`Except String _` whose `error` case is the raised exception, and the
theorems quantify over all outcomes.
-/

/-- Session lifecycle states.  The constants `SESSION_STATUS_*` live in
`session/models.py`, which is not part of the sources; the set of states
is taken from the imports and branches of `session_manager.py`. -/
inductive SessionStatus
  | STOPPED
  | SCHEDULING
  | SCHEDULED
  | GETTING_HOSTNAME
  | STARTING
  | RUNNING
  | STOPPING
  | BUSY
  | FAILED
deriving DecidableEq, Repr

/-- Modelled from the spec: the `Session` row of §3.  `session/models.py`
is not under the sources; the fields are those read and written by
`session_manager.py` and declared in §3 of the specification.  Timestamps
are integers (seconds). -/
structure Session where
  id : String
  owner : String
  configuration_id : String
  status : SessionStatus
  job_id : Option String
  process_pid : Int
  http_host : String
  http_port : Int
  created : Int
  valid_until : Int
deriving DecidableEq, Repr

/-- `RenderingResourceSettings` from `config/models.py`.  Note that the
persisted schema has a `modules` column (default `''`) but no
`wait_until_running` column. -/
structure RenderingResourceSettings where
  id : String
  command_line : String
  environment_variables : String
  modules : String
  process_rest_parameters_format : String
  scheduler_rest_parameters_format : String
  graceful_exit : Bool
deriving DecidableEq, Repr

/-- `SystemGlobalSettings` from `config/models.py`. -/
structure SystemGlobalSettings where
  id : Int
  session_creation : Bool
  session_keep_alive_timeout : Int
deriving DecidableEq, Repr

/-- The fields of the `params` dict handed to
`RenderingResourceSettingsManager.create/update`.  A renderer
configuration as the client sends it, including `modules`. -/
structure SettingsParams where
  id : String
  command_line : String
  environment_variables : String
  modules : String
  process_rest_parameters_format : String
  scheduler_rest_parameters_format : String
  graceful_exit : Bool
deriving DecidableEq, Repr

/-- The row a configuration `params` dict describes, field by field.
This follows the spec's words (§4.1, §8: the record `get` should return
equals `cfg`); it is the comparison point for the round-trip claims. -/
def settingsOfParams (p : SettingsParams) : RenderingResourceSettings :=
  { id := p.id
    command_line := p.command_line
    environment_variables := p.environment_variables
    modules := p.modules
    process_rest_parameters_format := p.process_rest_parameters_format
    scheduler_rest_parameters_format := p.scheduler_rest_parameters_format
    graceful_exit := p.graceful_exit }

/-- One step of Python's `str.replace(pat, rep)`: scan left to right,
replace each non-overlapping occurrence of `pat`, never rescanning the
replacement text just inserted.  The fuel is the length of the scanned
string, which bounds the number of scan steps since every step consumes
at least one character.  (Python's special behaviour for an empty
pattern is irrelevant here: the three patterns used are non-empty; for
an empty pattern this model returns the string unchanged.) -/
def pyReplaceFuel (pat rep : List Char) : Nat → List Char → List Char
  | _, [] => []
  | 0, l => l
  | fuel + 1, c :: rest =>
    if !pat.isEmpty && pat.isPrefixOf (c :: rest) then
      rep ++ pyReplaceFuel pat rep fuel (List.drop pat.length (c :: rest))
    else
      c :: pyReplaceFuel pat rep fuel rest

/-- Python's `s.replace(pat, rep)`. -/
def pyReplace (s pat rep : String) : String :=
  String.mk (pyReplaceFuel pat.toList rep.toList s.toList.length s.toList)

namespace RenderingResourceSettingsManager

/-- `RenderingResourceSettingsManager.format_rest_parameters`
(`rendering_resource_settings_manager.py` lines 103-117): three
sequential `str.replace` passes, hostname first, then port, then
schema. -/
def format_rest_parameters (string_format hostname port schema : String) : String :=
  let response := string_format
  let response := pyReplace response "${rest_hostname}" hostname
  let response := pyReplace response "${rest_port}" port
  let response := pyReplace response "${rest_schema}" schema
  response

/-- `RenderingResourceSettingsManager.create` (lines 23-45), on the
store slice keyed by `params.id`.  Only the listed keys of the params
dict are copied into the new row; `modules` is not among them and takes
the column default `''`.  A pre-existing row raises `IntegrityError`
on `force_insert`, answered with 409. -/
def create (store : Option RenderingResourceSettings) (params : SettingsParams) :
    (Nat × String) × Option RenderingResourceSettings :=
  match store with
  | some s => ((409, "IntegrityError"), some s)
  | none =>
    let settings : RenderingResourceSettings :=
      { id := params.id
        command_line := params.command_line
        environment_variables := params.environment_variables
        modules := ""
        process_rest_parameters_format := params.process_rest_parameters_format
        scheduler_rest_parameters_format := params.scheduler_rest_parameters_format
        graceful_exit := params.graceful_exit }
    ((201, "Rendering Resource " ++ params.id ++ " successfully configured"),
      some settings)

/-- `RenderingResourceSettingsManager.update` (lines 47-68): fetch the
row by `params.id`, overwrite `command_line`, `environment_variables`,
`process_rest_parameters_format`, `scheduler_rest_parameters_format`
and `graceful_exit` from the params dict — `modules` is not assigned —
then save; 404 when the row does not exist. -/
def update (store : Option RenderingResourceSettings) (params : SettingsParams) :
    (Nat × String) × Option RenderingResourceSettings :=
  match store with
  | none => ((404, "RenderingResourceSettings matching query does not exist."), none)
  | some s =>
    ((200, ""),
      some { s with
        command_line := params.command_line
        environment_variables := params.environment_variables
        process_rest_parameters_format := params.process_rest_parameters_format
        scheduler_rest_parameters_format := params.scheduler_rest_parameters_format
        graceful_exit := params.graceful_exit })

/-- `RenderingResourceSettingsManager.get_by_id` (lines 80-86): plain
keyed read of the store slice. -/
def get_by_id (store : Option RenderingResourceSettings) :
    Option RenderingResourceSettings :=
  store

end RenderingResourceSettingsManager

/-- Modelled from the spec's words (§4.8): substitution of the three
placeholders in one simultaneous left-to-right pass, so that replacement
text is never rescanned.  This is what claim C3 asserts of
`format_rest_parameters`; it exists only as the comparison point for
that claim.  The skip counts 16, 12 and 14 are the lengths of the
hostname, port and schema patterns. -/
def singlePassAux (h p s : List Char) : Nat → List Char → List Char
  | _, [] => []
  | 0, l => l
  | fuel + 1, c :: rest =>
    if ("${rest_hostname}".toList).isPrefixOf (c :: rest) then
      h ++ singlePassAux h p s fuel (List.drop 16 (c :: rest))
    else if ("${rest_port}".toList).isPrefixOf (c :: rest) then
      p ++ singlePassAux h p s fuel (List.drop 12 (c :: rest))
    else if ("${rest_schema}".toList).isPrefixOf (c :: rest) then
      s ++ singlePassAux h p s fuel (List.drop 14 (c :: rest))
    else
      c :: singlePassAux h p s fuel rest

/-- Single simultaneous pass over the format string (the behaviour the
spec ascribes to the formatter). -/
def singlePassFormat (string_format hostname port schema : String) : String :=
  String.mk (singlePassAux hostname.toList port.toList schema.toList
    string_format.toList.length string_format.toList)

open RenderingResourceSettingsManager

/-- Replacing a string that consists exactly of the port placeholder by
`rep` yields `rep`: the single scan step consumes the whole string. -/
theorem pyReplace_port_pattern (rep : String) :
    pyReplace "${rest_port}" "${rest_port}" rep = rep := by
  show String.mk (rep.toList ++ []) = rep
  rw [List.append_nil]
  rfl

/-- C3 counterexample: the hostname replacement value `${rest_port}` is
re-expanded by the second pass, so the formatter is not the single-pass
substitution the claim describes: on the format string
`${rest_hostname}` with hostname value `${rest_port}` and port value
`9` the code yields `9`, while a single pass yields `${rest_port}`. -/
theorem format_rest_parameters_not_single_pass :
    format_rest_parameters "${rest_hostname}" "${rest_port}" "9" "x" = "9" ∧
    singlePassFormat "${rest_hostname}" "${rest_port}" "9" "x" = "${rest_port}" ∧
    ("9" : String) ≠ "${rest_port}" := by
  refine ⟨by decide, by decide, by decide⟩

/-- C3 (amended): `format_rest_parameters` substitutes in three
sequential passes — hostname, then port, then schema — each pass
replacing every occurrence left to right without rescanning its own
replacement text, but a placeholder contained in an earlier pass's
replacement value is re-expanded by the later passes.  In general form:
formatting the bare hostname placeholder with hostname value
`${rest_port}` hands the port value `p` to the schema pass, for all
`p` and `s`. -/
theorem format_rest_parameters_sequential_passes (p s : String) :
    format_rest_parameters "${rest_hostname}" "${rest_port}" p s
      = pyReplace p "${rest_schema}" s := by
  have h1 : pyReplace "${rest_hostname}" "${rest_hostname}" "${rest_port}"
      = "${rest_port}" := by decide
  show pyReplace (pyReplace (pyReplace "${rest_hostname}" "${rest_hostname}"
      "${rest_port}") "${rest_port}" p) "${rest_schema}" s
    = pyReplace p "${rest_schema}" s
  rw [h1, pyReplace_port_pattern]

/-- A configuration with a non-empty `modules` value, for the
round-trip counterexample. -/
def c6Params : SettingsParams :=
  { id := "rtneuron"
    command_line := "rtneuron-app.py"
    environment_variables := "EQ_WINDOW_IATTR_HINT_HEIGHT=512"
    modules := "BBP/viz/latest"
    process_rest_parameters_format := "--rest ${rest_hostname}:${rest_port}"
    scheduler_rest_parameters_format := "--rest ${rest_hostname}:${rest_port}"
    graceful_exit := true }

/-- C6 counterexample: `create` never copies the `modules` key of the
params dict, so the row read back after a successful create differs
from the configuration that was sent whenever `cfg.modules` is
non-empty: the stored `modules` is the column default `''`. -/
theorem create_drops_modules :
    ((create none c6Params).1).1 = 201 ∧
    get_by_id (create none c6Params).2 ≠ some (settingsOfParams c6Params) ∧
    ((get_by_id (create none c6Params).2).map RenderingResourceSettings.modules)
      = some "" ∧
    c6Params.modules = "BBP/viz/latest" := by
  refine ⟨rfl, by decide, rfl, rfl⟩

/-- C6 (amended): after a successful `create(cfg)` (status 201),
`get(cfg.id)` returns a record equal to `cfg` on every field except
`modules`, which is stored as the column default `''` regardless of the
value sent. -/
theorem create_get_roundtrip_except_modules (p : SettingsParams) :
    ((create none p).1).1 = 201 ∧
    get_by_id (create none p).2 = some { settingsOfParams p with modules := "" } :=
  ⟨rfl, rfl⟩

/-- An existing configuration row, for the update counterexample. -/
def c7Row : RenderingResourceSettings :=
  { id := "rtneuron"
    command_line := "old-cmd"
    environment_variables := "OLD=1"
    modules := "mod_old"
    process_rest_parameters_format := "old-prf"
    scheduler_rest_parameters_format := "old-srf"
    graceful_exit := false }

/-- New values for every field of `c7Row`, including `modules`. -/
def c7Params : SettingsParams :=
  { id := "rtneuron"
    command_line := "new-cmd"
    environment_variables := "NEW=1"
    modules := "mod_new"
    process_rest_parameters_format := "new-prf"
    scheduler_rest_parameters_format := "new-srf"
    graceful_exit := true }

/-- C7 counterexample: `update` returns 200 on an existing row but does
not assign the `modules` field, so the row keeps its old `modules`
value instead of the one from the request. -/
theorem update_keeps_modules :
    ((update (some c7Row) c7Params).1).1 = 200 ∧
    ((update (some c7Row) c7Params).2.map RenderingResourceSettings.modules)
      = some "mod_old" ∧
    c7Params.modules = "mod_new" ∧
    ("mod_old" : String) ≠ "mod_new" := by
  refine ⟨rfl, rfl, rfl, by decide⟩

/-- C7 (amended): on an existing row `update(cfg)` returns 200 and
replaces `command_line`, `environment_variables`,
`process_rest_parameters_format`, `scheduler_rest_parameters_format`
and `graceful_exit` with the values from `cfg`, while `modules` keeps
its previous value; on a missing id it returns 404 and changes
nothing. -/
theorem update_replaces_fields_except_modules
    (s : RenderingResourceSettings) (p : SettingsParams) :
    ((update (some s) p).1).1 = 200 ∧
    (update (some s) p).2
      = some { settingsOfParams p with id := s.id, modules := s.modules } ∧
    update none p
      = ((404, "RenderingResourceSettings matching query does not exist."), none) :=
  ⟨rfl, rfl, rfl⟩

/-- Whether an external call returned normally (`ok`) rather than
raising a Python exception (`error`). -/
def exceptOk {α : Type} : Except String α → Bool
  | Except.ok _ => true
  | Except.error _ => false

/-- Outcomes of the adapter calls made while tearing a session down:
`ProcessManager.stop`, `JobManager.stop` and `JobManager.kill`.  Each
either returns a `[code, message]` result (`ok`, the value itself is
ignored by `delete_session`) or raises (`error`). -/
structure AdapterEnv where
  processStop : Except String (Nat × String)
  jobStop : Except String (Nat × String)
  jobKill : Except String (Option (Nat × String))
deriving Repr

/-- The guard `session.job_id is not None and session.job_id != ''` of
`delete_session`. -/
def jobIdPresent (s : Session) : Bool :=
  match s.job_id with
  | some j => j != ""
  | none => false

/-- Message of Django's `Session.DoesNotExist`. -/
def doesNotExistMsg : String := "Session matching query does not exist."

namespace SessionManager

/-- `SessionManager.delete_session` (`session_manager.py` lines
158-191): fetch the row, persist status `STOPPING`, best-effort the
process stop and the job stop/kill, then delete the row and answer 200.
A missing row answers 404.  Any exception raised by an adapter call is
caught by the blanket `except Exception` and answered with 500 — at
that point the row has already been saved with status `STOPPING` but
has not been deleted.  (The `return 200` after the `try` statement is
unreachable: every branch of the `try` returns.) -/
def delete_session (store : Option Session) (env : AdapterEnv) :
    (Nat × String) × Option Session :=
  match store with
  | none => ((404, doesNotExistMsg), none)
  | some s0 =>
    let s := { s0 with status := SessionStatus.STOPPING }
    let saved : Option Session := some s
    -- the guards read `session.process_pid` and `session.job_id`, which
    -- the status mutation above does not touch, so they are read off `s0`
    let procPhase : Except String Unit :=
      if s0.process_pid != -1 then
        match env.processStop with
        | Except.ok _ => Except.ok ()
        | Except.error e => Except.error e
      else Except.ok ()
    match procPhase with
    | Except.error e => ((500, e), saved)
    | Except.ok _ =>
      let jobPhase : Except String Unit :=
        if jobIdPresent s0 then
          match env.jobStop with
          | Except.error e => Except.error e
          | Except.ok _ =>
            match env.jobKill with
            | Except.error e => Except.error e
            | Except.ok _ => Except.ok ()
        else Except.ok ()
      match jobPhase with
      | Except.error e => ((500, e), saved)
      | Except.ok _ => ((200, "Session successfully destroyed"), none)

/-- `SessionManager.create_session` (lines 92-126).  The clocks are
modelled at one instant: `datetime.utcnow()` reads `utcNow` and
`datetime.now()` reads `utcNow + localOffset`, where `localOffset` is
the UTC offset of the host's local time zone.  The fields not assigned
by the constructor call (`status`, `job_id`, `process_pid`,
`http_host`, `http_port`) take the column defaults of the
`Session` model, which is not under the sources; they are modelled from
the spec (§3, §4.5: a fresh row is `SCHEDULING` with no job, no
process, no endpoint). -/
def create_session (store : Option Session) (sgs : SystemGlobalSettings)
    (utcNow localOffset : Int) (session_id owner configuration_id : String) :
    (Nat × String) × Option Session :=
  if sgs.session_creation then
    match store with
    | some s => ((409, "IntegrityError"), some s)
    | none =>
      let session : Session :=
        { id := session_id
          owner := owner
          configuration_id := configuration_id
          status := SessionStatus.SCHEDULING
          job_id := none
          process_pid := -1
          http_host := ""
          http_port := 0
          created := utcNow
          valid_until := (utcNow + localOffset) + sgs.session_keep_alive_timeout }
      ((201, "Session successfully created"), some session)
  else ((403, "Session creation is currently suspended"), store)

/-- `SessionManager.keep_alive_session` (lines 447-464):
`valid_until := now + keep_alive_timeout`, nothing else; 404 when the
row is gone.  `now` is the `datetime.now()` reading. -/
def keep_alive_session (store : Option Session) (sgs : SystemGlobalSettings)
    (now : Int) : (Nat × String) × Option Session :=
  match store with
  | some session =>
    let session := { session with
      valid_until := now + sgs.session_keep_alive_timeout }
    ((200, "Session successfully updated"), some session)
  | none => ((404, doesNotExistMsg), none)

end SessionManager

/-- Outcome of the `globalJobManager.hostname(...)` call made by
`request_vocabulary` when the vocabulary probe failed.  The call may
raise `AttributeError` (caught: the local `hostname` keeps the value
`''`), raise some other exception (uncaught: it propagates), or return
a hostname string. -/
inductive HostnameOutcome
  | raiseAttr
  | raiseOther (e : String)
  | ret (h : String)
deriving DecidableEq, Repr

/-- The external world as seen by one `query_status` call: the
`wait_until_running` attribute read on the settings row (the column is
absent from `config/models.py`, so on the committed schema this access
raises — the spec lists it as an open question; an absent settings row
raises `DoesNotExist`, also covered by the `error` case), the outcome
of the vocabulary probe (`requests.put`; `error` is a
`RequestException`, which is caught), the outcome of the hostname
lookup, the adapter outcomes used if `delete_session` is triggered, the
global settings row, and the `datetime.now()` reading. -/
structure QSEnv where
  waitUntilRunning : Except String Bool
  vocab : Except String String
  hostnameOut : HostnameOutcome
  adapters : AdapterEnv
  sgs : SystemGlobalSettings
  now : Int
deriving Repr

/-- Result of `query_status`: either the JSON record built by
`__status_response` (HTTP code, session status code, description,
hostname, port) or a bare `[code, message]` pair. -/
inductive QSResult
  | statusResp (http : Nat) (code : SessionStatus) (description : String)
      (hostname : String) (port : Int)
  | plain (http : Nat) (msg : String)
deriving DecidableEq, Repr

namespace SessionManager

/-- `SessionManager.request_vocabulary` (lines 242-280): probe the
renderer; on probe failure ask the job manager for the job's hostname
(`AttributeError` is caught, leaving `hostname = ''`) and, if the
hostname is empty, destroy the session via `delete_session` and answer
404; otherwise answer 503.  An `Except.error` result is an uncaught
exception.  The returned store reflects the deletion side effect. -/
def request_vocabulary (store : Option Session) (env : QSEnv) :
    Except String ((Nat × String) × Option Session) :=
  match store with
  | none => Except.ok ((404, doesNotExistMsg), none)
  | some _ =>
    match env.vocab with
    | Except.ok text => Except.ok ((200, text), store)
    | Except.error e =>
      match env.hostnameOut with
      | HostnameOutcome.raiseOther ex => Except.error ex
      | HostnameOutcome.raiseAttr =>
        Except.ok ((404, e), (delete_session store env.adapters).2)
      | HostnameOutcome.ret h =>
        if h == "" then
          Except.ok ((404, e), (delete_session store env.adapters).2)
        else
          Except.ok ((503, e), store)

/-- `SessionManager.query_status` (lines 328-445), threading the
persisted row next to the returned value; an `Except.error` first
component is an uncaught exception (the row component then still
records the persistence effects that happened before the raise).

Branch by persisted status:
* `SCHEDULING`: report only.
* `SCHEDULED`/`GETTING_HOSTNAME`: if `http_host` is already known, move
  to `STARTING` and save.
* `STARTING`: read `wait_until_running`; when false move to `RUNNING`,
  otherwise probe the vocabulary: 200 → `RUNNING`; 404 → answer
  `[404, 'Job has been cancelled']` (the probe's deletion side effect
  persists); else report only.
* `RUNNING`: refresh `valid_until` when expired, then probe: 200 →
  report; 404 → `__status_response` with code `STOPPED`; else move to
  `BUSY` and save.
* `BUSY`: probe: 200 → back to `RUNNING`; 404 → as above; else report.
* `STOPPING`: `session.delete()` removes the row and clears the
  instance's primary key (Django 1.6-1.8 `Collector.delete`); the
  immediately following `session.save()` therefore attempts an INSERT
  with a NULL primary key and raises `IntegrityError`, which this
  method does not catch (it only catches `Session.DoesNotExist`) — the
  row stays deleted and the exception propagates.
* `STOPPED`/`FAILED`: report only.
The final `__status_response` uses the in-memory session, i.e. the
mutated status. -/
def query_status (store : Option Session) (env : QSEnv) :
    Except String QSResult × Option Session :=
  match store with
  | none => (Except.ok (QSResult.plain 404 doesNotExistMsg), none)
  | some session =>
    match session.status with
    | SessionStatus.SCHEDULING =>
      (Except.ok (QSResult.statusResp 200 session.status
        (session.configuration_id ++ " is scheduled")
        session.http_host session.http_port), some session)
    | SessionStatus.SCHEDULED | SessionStatus.GETTING_HOSTNAME =>
      if session.http_host != "" then
        let s := { session with status := SessionStatus.STARTING }
        (Except.ok (QSResult.statusResp 200 s.status
          (s.configuration_id ++ " is starting") s.http_host s.http_port), some s)
      else
        (Except.ok (QSResult.statusResp 200 session.status
          (session.configuration_id ++ " is scheduled")
          session.http_host session.http_port), some session)
    | SessionStatus.STARTING =>
      match env.waitUntilRunning with
      | Except.error e => (Except.error e, some session)
      | Except.ok w =>
        if !w then
          let s := { session with status := SessionStatus.RUNNING }
          (Except.ok (QSResult.statusResp 200 s.status
            (s.configuration_id ++ " is up and running")
            s.http_host s.http_port), some s)
        else
          match request_vocabulary (some session) env with
          | Except.error e => (Except.error e, some session)
          | Except.ok (st, store1) =>
            if st.1 == 200 then
              let s := { session with status := SessionStatus.RUNNING }
              (Except.ok (QSResult.statusResp 200 s.status
                (s.configuration_id ++ " is up and running")
                s.http_host s.http_port), some s)
            else if st.1 == 404 then
              (Except.ok (QSResult.plain 404 "Job has been cancelled"), store1)
            else
              (Except.ok (QSResult.statusResp 200 session.status
                (session.configuration_id ++
                  " is starting but the HTTP interface is not yet available")
                session.http_host session.http_port), store1)
    | SessionStatus.RUNNING =>
      let session1 :=
        if env.now > session.valid_until then
          { session with
            valid_until := env.now + env.sgs.session_keep_alive_timeout }
        else session
      match request_vocabulary (some session1) env with
      | Except.error e => (Except.error e, some session1)
      | Except.ok (st, store2) =>
        if st.1 == 200 then
          (Except.ok (QSResult.statusResp 200 session1.status
            (session1.configuration_id ++ " is up and running")
            session1.http_host session1.http_port), store2)
        else if st.1 == 404 then
          (Except.ok (QSResult.statusResp 404 SessionStatus.STOPPED
            "Job has been cancelled" "" 0), store2)
        else
          let s := { session1 with status := SessionStatus.BUSY }
          (Except.ok (QSResult.statusResp 200 s.status
            (s.configuration_id ++ " is busy") s.http_host s.http_port), some s)
    | SessionStatus.BUSY =>
      match request_vocabulary (some session) env with
      | Except.error e => (Except.error e, some session)
      | Except.ok (st, store1) =>
        if st.1 == 200 then
          let s := { session with status := SessionStatus.RUNNING }
          (Except.ok (QSResult.statusResp 200 s.status
            (s.configuration_id ++ " is up and running")
            s.http_host s.http_port), some s)
        else if st.1 == 404 then
          (Except.ok (QSResult.statusResp 404 SessionStatus.STOPPED
            "Job has been cancelled" "" 0), store1)
        else
          (Except.ok (QSResult.statusResp 200 session.status
            (session.configuration_id ++ " is busy")
            session.http_host session.http_port), store1)
    | SessionStatus.STOPPING =>
      -- session.delete() empties the store and clears the pk; the
      -- following session.save() raises IntegrityError (NULL pk INSERT)
      (Except.error "IntegrityError", none)
    | SessionStatus.STOPPED =>
      (Except.ok (QSResult.statusResp 200 session.status
        (session.configuration_id ++ " is not active")
        session.http_host session.http_port), some session)
    | SessionStatus.FAILED =>
      (Except.ok (QSResult.statusResp 200 session.status
        ("Job allocation failed for " ++ session.configuration_id)
        session.http_host session.http_port), some session)

end SessionManager

/-- A Python value stored in the `[code, message]` response lists of
`JobManager`. -/
inductive PyVal
  | int (n : Int)
  | str (s : String)
deriving DecidableEq, Repr

/-- Python truthiness of a list: non-empty lists are truthy. -/
def pyListTruthy (l : List PyVal) : Bool := !l.isEmpty

namespace JobManager

/-- `JobManager.__connect` (`job_manager.py` lines 44-60): start from
`response = [200, 'Connected']`; when not yet connected, attempt the
connection and on a `SagaException` set `response = [400, str(e)]`;
return `response`.  `alreadyConnected` is `self._connected`,
`connectAttempt` the outcome of constructing the saga job service. -/
def connect (alreadyConnected : Bool) (connectAttempt : Except String Unit) :
    List PyVal :=
  if alreadyConnected then [PyVal.int 200, PyVal.str "Connected"]
  else
    match connectAttempt with
    | Except.ok _ => [PyVal.int 200, PyVal.str "Connected"]
    | Except.error e => [PyVal.int 400, PyVal.str e]

/-- Result of `JobManager.kill`: the bare `return` (which yields
`None`), an uncaught exception, or a `[code, message]` pair. -/
inductive KillResult
  | retNone
  | raised (e : String)
  | ret (code : Nat) (msg : String)
deriving DecidableEq, Repr

/-- `JobManager.kill` (lines 270-290).  The guard is
`if not self.__connect(): return` — it tests the truthiness of the
returned response list.  `self._service` is set exactly when the
manager is connected (either from before, or because this call's
connection attempt succeeded); when it is still `None`, the
`self._service.get_job(job_id)` call raises `AttributeError`, which the
`except saga.SagaException` clause does not catch.  `jobOps` is the
outcome of `get_job`/`signal`/`get_state`: a caught `SagaException`
(`error`) or the test `get_state() != RUNNING` (`ok`). -/
def kill (alreadyConnected : Bool) (connectAttempt : Except String Unit)
    (job_id : Option String) (jobOps : Except String Bool) : KillResult :=
  let connectResp := connect alreadyConnected connectAttempt
  let serviceSet := alreadyConnected || exceptOk connectAttempt
  if pyListTruthy connectResp = false then KillResult.retNone
  else
    match job_id with
    | none => KillResult.ret 400 "Could not kill job None"
    | some jid =>
      if serviceSet then
        match jobOps with
        | Except.error e => KillResult.ret 400 e
        | Except.ok notRunningAfterKill =>
          if notRunningAfterKill then KillResult.ret 200 "Job successfully killed"
          else KillResult.ret 400 ("Could not kill job " ++ jid)
      else KillResult.raised "AttributeError"

end JobManager

/-- One edge of the state graph exactly as claim C1 names it:
`SCHEDULING → SCHEDULED → GETTING_HOSTNAME → STARTING → RUNNING ↔
BUSY`. -/
def claimEdge : SessionStatus → SessionStatus → Bool
  | SessionStatus.SCHEDULING, SessionStatus.SCHEDULED => true
  | SessionStatus.SCHEDULED, SessionStatus.GETTING_HOSTNAME => true
  | SessionStatus.GETTING_HOSTNAME, SessionStatus.STARTING => true
  | SessionStatus.STARTING, SessionStatus.RUNNING => true
  | SessionStatus.RUNNING, SessionStatus.BUSY => true
  | SessionStatus.BUSY, SessionStatus.RUNNING => true
  | _, _ => false

/-- What claim C1 allows one `query_status` call to do to the persisted
status: stay put or advance along exactly one edge of its graph. -/
def claimStep (a b : SessionStatus) : Bool :=
  a == b || claimEdge a b

/-- What one `query_status` call actually does to the persisted status:
stay put, advance along an edge of the claim's graph, jump
`SCHEDULED → STARTING` directly (skipping `GETTING_HOSTNAME` when the
hostname is already known), or land in `STOPPING` (left behind when the
probe discovers the job gone and the triggered `delete_session` fails
midway). -/
def observedStep (a b : SessionStatus) : Bool :=
  a == b || claimEdge a b ||
    (a == SessionStatus.SCHEDULED && b == SessionStatus.STARTING) ||
    b == SessionStatus.STOPPING

/-- After `delete_session` on an existing row, the store either lost
the row (teardown completed) or still holds it with status `STOPPING`
(an adapter raised after the save). -/
theorem delete_session_store_cases (s : Session) (env : AdapterEnv) :
    (SessionManager.delete_session (some s) env).2 = none ∨
    (SessionManager.delete_session (some s) env).2
      = some { s with status := SessionStatus.STOPPING } := by
  unfold SessionManager.delete_session
  dsimp only
  split
  · exact Or.inr rfl
  · split
    · exact Or.inr rfl
    · exact Or.inl rfl

/-- The persisted status never leaves the relation: reflexivity. -/
theorem observedStep_refl (a : SessionStatus) : observedStep a a = true := by
  simp [observedStep]

/-- Landing in `STOPPING` is within the observed relation from any
state. -/
theorem observedStep_stopping (a : SessionStatus) :
    observedStep a SessionStatus.STOPPING = true := by
  simp [observedStep]

/-- The store after a `request_vocabulary` call that returned normally:
unchanged, or — when the failed probe triggered `delete_session` —
empty or holding the row in status `STOPPING`. -/
theorem request_vocabulary_store_cases (s : Session) (env : QSEnv)
    (st : Nat × String) (store1 : Option Session)
    (h : SessionManager.request_vocabulary (some s) env = Except.ok (st, store1)) :
    store1 = some s ∨ store1 = none ∨
      store1 = some { s with status := SessionStatus.STOPPING } := by
  unfold SessionManager.request_vocabulary at h
  dsimp only at h
  cases hv : env.vocab with
  | ok text =>
    rw [hv] at h
    dsimp only at h
    simp only [Except.ok.injEq, Prod.mk.injEq] at h
    exact Or.inl h.2.symm
  | error e =>
    rw [hv] at h
    dsimp only at h
    cases hh : env.hostnameOut with
    | raiseOther ex =>
      rw [hh] at h
      exact absurd h (by simp)
    | raiseAttr =>
      rw [hh] at h
      dsimp only at h
      simp only [Except.ok.injEq, Prod.mk.injEq] at h
      rcases delete_session_store_cases s env.adapters with hd | hd
      · exact Or.inr (Or.inl (h.2.symm.trans hd))
      · exact Or.inr (Or.inr (h.2.symm.trans hd))
    | ret hname =>
      rw [hh] at h
      dsimp only at h
      by_cases hemp : (hname == "") = true
      · rw [if_pos hemp] at h
        simp only [Except.ok.injEq, Prod.mk.injEq] at h
        rcases delete_session_store_cases s env.adapters with hd | hd
        · exact Or.inr (Or.inl (h.2.symm.trans hd))
        · exact Or.inr (Or.inr (h.2.symm.trans hd))
      · rw [if_neg hemp] at h
        simp only [Except.ok.injEq, Prod.mk.injEq] at h
        exact Or.inl h.2.symm

/-- A store satisfying the `request_vocabulary` case split, once known
to hold a row, bounds that row's status. -/
theorem observedStep_of_cases (s s' : Session) (store1 : Option Session)
    (hc : store1 = some s ∨ store1 = none ∨
      store1 = some { s with status := SessionStatus.STOPPING })
    (h : store1 = some s') :
    s'.status = s.status ∨ s'.status = SessionStatus.STOPPING := by
  rcases hc with hc | hc | hc <;> rw [hc] at h
  · exact Or.inl (congrArg Session.status (Option.some.inj h)).symm
  · exact absurd h (by simp)
  · exact Or.inr (congrArg Session.status (Option.some.inj h)).symm

/-- The session used in the deletion counterexample: a running cluster
session (no local process, a job id). -/
def c2Session : Session :=
  { id := "s-c2"
    owner := "alice"
    configuration_id := "rtneuron"
    status := SessionStatus.RUNNING
    job_id := some "rtneuron-[1234]"
    process_pid := -1
    http_host := "node1"
    http_port := 3000
    created := 0
    valid_until := 1000 }

/-- Adapter outcomes in which both stop and kill are attempted — stop
returns an error result, kill raises. -/
def c2Env : AdapterEnv :=
  { processStop := Except.ok (200, "ok")
    jobStop := Except.ok (400, "Could not cancel job rtneuron-[1234]")
    jobKill := Except.error "AttributeError" }

/-- C2 counterexample: both stop and kill are attempted (stop returns
an error result, kill raises an exception), yet the row is not
removed — the blanket `except Exception` answers 500 and leaves the row
persisted with status `STOPPING`, so deletion is not idempotent from
the client's perspective. -/
theorem delete_session_exception_keeps_row :
    SessionManager.delete_session (some c2Session) c2Env
      = ((500, "AttributeError"),
        some { c2Session with status := SessionStatus.STOPPING }) ∧
    (SessionManager.delete_session (some c2Session) c2Env).2 ≠ none := by
  refine ⟨by decide, by decide⟩

/-- C2 (amended): `delete_session` on an existing row removes the row
and answers 200 provided no invoked adapter call raises an exception;
adapter errors returned as `[code, message]` results never block row
removal, but a raised exception aborts the deletion with 500 and leaves
the row behind in status `STOPPING`. -/
theorem delete_session_removes_row_when_no_raise (s : Session) (env : AdapterEnv)
    (hp : s.process_pid ≠ -1 → exceptOk env.processStop = true)
    (hj : jobIdPresent s = true →
      exceptOk env.jobStop = true ∧ exceptOk env.jobKill = true) :
    SessionManager.delete_session (some s) env
      = ((200, "Session successfully destroyed"), none) := by
  rcases env with ⟨ps, js, jk⟩
  by_cases h1 : s.process_pid = -1 <;> by_cases h2 : jobIdPresent s = true <;>
    cases ps <;> cases js <;> cases jk <;>
      simp_all [SessionManager.delete_session, exceptOk]

/-- A session with both stop paths exercised, for the deletion
witness. -/
def c2wSession : Session :=
  { id := "s-c2w"
    owner := "alice"
    configuration_id := "rtneuron"
    status := SessionStatus.RUNNING
    job_id := some "rtneuron-[5]"
    process_pid := 4321
    http_host := "node1"
    http_port := 3000
    created := 0
    valid_until := 1000 }

/-- Adapter outcomes in which every call returns normally. -/
def c2wEnv : AdapterEnv :=
  { processStop := Except.ok (200, "ok")
    jobStop := Except.ok (200, "Job successfully cancelled")
    jobKill := Except.ok (some (200, "Job successfully killed")) }

/-- C2 witness: with a process and a job to tear down and no adapter
raising, the row is removed and the call answers 200. -/
theorem delete_session_removes_row_when_no_raise_witness :
    SessionManager.delete_session (some c2wSession) c2wEnv
      = ((200, "Session successfully destroyed"), none) :=
  delete_session_removes_row_when_no_raise c2wSession c2wEnv
    (fun _ => by decide) (fun _ => ⟨by decide, by decide⟩)

/-- C4: whenever `delete_session` answers 200 the row is gone, so a
subsequent `query_status` on the same id (with no interleaving create)
answers 404. -/
theorem delete_ok_then_query_not_found (store : Option Session) (env : AdapterEnv)
    (qenv : QSEnv)
    (h : ((SessionManager.delete_session store env).1).1 = 200) :
    SessionManager.query_status (SessionManager.delete_session store env).2 qenv
      = (Except.ok (QSResult.plain 404 doesNotExistMsg), none) := by
  have h2 : (SessionManager.delete_session store env).2 = none := by
    rcases store with _ | s
    · simp [SessionManager.delete_session] at h
    · unfold SessionManager.delete_session at h ⊢
      dsimp only at h ⊢
      split at h
      · simp at h
      · split at h
        · simp at h
        · rfl
  rw [h2]
  rfl

/-- A session with neither process nor job, whose teardown always
succeeds. -/
def c4Session : Session :=
  { id := "s-c4"
    owner := "bob"
    configuration_id := "livre"
    status := SessionStatus.SCHEDULING
    job_id := none
    process_pid := -1
    http_host := ""
    http_port := 0
    created := 0
    valid_until := 10 }

/-- Adapter outcomes for the deletion in the C4 witness. -/
def c4Env : AdapterEnv :=
  { processStop := Except.ok (200, "ok")
    jobStop := Except.ok (200, "ok")
    jobKill := Except.ok none }

/-- Probe outcomes for the status query in the C4 witness. -/
def c4QEnv : QSEnv :=
  { waitUntilRunning := Except.ok false
    vocab := Except.ok "vocabulary"
    hostnameOut := HostnameOutcome.ret "node1"
    adapters := c4Env
    sgs := ⟨0, true, 1000⟩
    now := 0 }

/-- C4 witness: deleting an existing session answers 200 and the
following status query answers 404. -/
theorem delete_ok_then_query_not_found_witness :
    SessionManager.query_status
        (SessionManager.delete_session (some c4Session) c4Env).2 c4QEnv
      = (Except.ok (QSResult.plain 404 doesNotExistMsg), none) :=
  delete_ok_then_query_not_found (some c4Session) c4Env c4QEnv (by decide)

/-- C5: `create_session` reads `created` from `datetime.utcnow()` but
computes `valid_until` from `datetime.now()`, the local clock.  On a
host whose local time zone is 5 hours behind UTC (offset −18000 s) and
with the keep-alive timeout of 1000 s, the freshly inserted row has
`valid_until = created − 17000 < created`, violating the invariant
`valid_until > created` even though the timeout is non-negative. -/
theorem create_session_clock_skew :
    ((SessionManager.create_session none ⟨0, true, 1000⟩ 0 (-18000)
        "s-c5" "alice" "rtneuron").2.map Session.valid_until) = some (-17000) ∧
    ((SessionManager.create_session none ⟨0, true, 1000⟩ 0 (-18000)
        "s-c5" "alice" "rtneuron").2.map Session.created) = some 0 ∧
    ¬ ((-17000 : Int) > 0) := by
  refine ⟨by decide, by decide, by decide⟩

/-- A session whose `valid_until` equals what keep-alive will write,
for the keep-alive counterexample. -/
def c8Session : Session :=
  { id := "s-c8"
    owner := "carol"
    configuration_id := "livre"
    status := SessionStatus.RUNNING
    job_id := some "livre-[9]"
    process_pid := -1
    http_host := "node2"
    http_port := 5000
    created := 0
    valid_until := 1000 }

/-- C8 counterexample: `keep_alive_session` assigns
`valid_until := now + timeout` rather than extending the stored value;
called at `now = 0` with timeout 1000 on a session whose `valid_until`
is already 1000, it leaves `valid_until` unchanged — not a strict
increase. -/
theorem keep_alive_not_strictly_increasing :
    c8Session.valid_until = 1000 ∧
    ((SessionManager.keep_alive_session (some c8Session) ⟨0, true, 1000⟩ 0).2.map
        Session.valid_until) = some 1000 ∧
    ¬ ((1000 : Int) > 1000) := by
  refine ⟨rfl, rfl, by decide⟩

/-- C8 (amended): `keep_alive_session` on an existing row answers 200,
assigns `valid_until := now + keep_alive_timeout` — which strictly
increases it exactly when that sum exceeds the stored value, e.g.
whenever the clock strictly advanced since the last assignment with the
same timeout — and never changes the status; on a missing id it answers
404 and changes nothing. -/
theorem keep_alive_sets_valid_until (s : Session) (sgs : SystemGlobalSettings)
    (now : Int) :
    ((SessionManager.keep_alive_session (some s) sgs now).1).1 = 200 ∧
    ((SessionManager.keep_alive_session (some s) sgs now).2.map Session.valid_until)
      = some (now + sgs.session_keep_alive_timeout) ∧
    ((SessionManager.keep_alive_session (some s) sgs now).2.map Session.status)
      = some s.status ∧
    SessionManager.keep_alive_session none sgs now = ((404, doesNotExistMsg), none) :=
  ⟨rfl, rfl, rfl, rfl⟩

/-- C9 counterexample: with the manager not connected and the
connection attempt failing, `kill` does not return `None`: `__connect`
returns the truthy list `[400, message]`, the `not` guard is therefore
false, and `kill` proceeds into `self._service.get_job` on the unset
service handle, raising `AttributeError`. -/
theorem kill_not_connected_raises :
    JobManager.kill false (Except.error "Unable to connect")
        (some "rtneuron-[1234]") (Except.ok true)
      = JobManager.KillResult.raised "AttributeError" ∧
    JobManager.KillResult.raised "AttributeError" ≠ JobManager.KillResult.retNone := by
  refine ⟨by decide, by decide⟩

/-- C9 (amended): `__connect` always returns a non-empty (hence truthy)
`[code, message]` list, so the early-return branch
`if not self.__connect(): return` of `kill` is dead code: `kill` never
returns `None` — when not connected it proceeds and raises
`AttributeError` from the unset service handle instead of returning a
structured error. -/
theorem kill_never_returns_none (c : Bool) (a : Except String Unit)
    (j : Option String) (g : Except String Bool) :
    pyListTruthy (JobManager.connect c a) = true ∧
    JobManager.kill c a j g ≠ JobManager.KillResult.retNone := by
  have h1 : pyListTruthy (JobManager.connect c a) = true := by
    cases c
    · cases a <;> rfl
    · rfl
  refine ⟨h1, ?_⟩
  unfold JobManager.kill
  simp only [h1, Bool.true_eq_false, if_false]
  cases j with
  | none => simp
  | some jid =>
    by_cases hs : c = true ∨ exceptOk a = true
    · cases g with
      | error e => simp [hs]
      | ok b => cases b <;> simp [hs]
    · simp [hs]

/-- The session of the C10 counterexample and witness: persisted
status `STOPPING`. -/
def c10Session : Session :=
  { id := "s-c10"
    owner := "dave"
    configuration_id := "rtneuron"
    status := SessionStatus.STOPPING
    job_id := some "rtneuron-[77]"
    process_pid := -1
    http_host := "node9"
    http_port := 3000
    created := 0
    valid_until := 50 }

/-- Probe outcomes for the C10 theorems (none of them is reached in
the `STOPPING` branch). -/
def c10Env : QSEnv :=
  { waitUntilRunning := Except.ok true
    vocab := Except.error "RequestException"
    hostnameOut := HostnameOutcome.ret ""
    adapters := ⟨Except.ok (200, "ok"), Except.ok (200, "ok"), Except.ok none⟩
    sgs := ⟨0, true, 1000⟩
    now := 100 }

/-- C10 counterexample: on a concrete `STOPPING` session the claim's
outcome does not occur — after the call the row is gone (not still
present with status `STOPPING`) and the call raises `IntegrityError`
instead of returning HTTP 200: `session.delete()` clears the in-memory
primary key on Django 1.6-1.8, so the immediate `session.save()`
attempts an INSERT with a NULL primary key. -/
theorem query_status_stopping_not_kept :
    c10Session.status = SessionStatus.STOPPING ∧
    (SessionManager.query_status (some c10Session) c10Env).2 = none ∧
    (SessionManager.query_status (some c10Session) c10Env).1
      = Except.error "IntegrityError" := by
  refine ⟨rfl, by decide, rfl⟩

/-- C10 (amended): on a session in status `STOPPING`, `query_status`
deletes the row; the immediate re-save then raises `IntegrityError`
(the delete cleared the primary key), which the method does not catch,
so after the call the row no longer exists and an uncaught exception
propagates (HTTP 500 at the boundary) rather than a 200 response. -/
theorem query_status_stopping_deletes_row (s : Session) (env : QSEnv)
    (h : s.status = SessionStatus.STOPPING) :
    SessionManager.query_status (some s) env
      = (Except.error "IntegrityError", none) := by
  unfold SessionManager.query_status
  dsimp only
  rw [h]

/-- C10 witness: a concrete `STOPPING` session is removed by its
status query, which raises. -/
theorem query_status_stopping_deletes_row_witness :
    SessionManager.query_status (some c10Session) c10Env
      = (Except.error "IntegrityError", none) :=
  query_status_stopping_deletes_row c10Session c10Env rfl


/-- C1 (amended): a single `query_status` call moves the persisted
status only within `observedStep`: it leaves it unchanged, advances it
along one edge of the claim's graph, jumps `SCHEDULED → STARTING`
directly — skipping `GETTING_HOSTNAME` — when the hostname is already
known, or leaves the row behind in `STOPPING` when the probe found the
job gone and the triggered deletion failed midway.  In particular no
backward transition other than `RUNNING ↔ BUSY` ever occurs. -/
theorem query_status_single_step (s : Session) (env : QSEnv) (s' : Session)
    (h : (SessionManager.query_status (some s) env).2 = some s') :
    observedStep s.status s'.status = true := by
  unfold SessionManager.query_status at h
  dsimp only at h
  cases hst : s.status
  case STOPPED =>
    rw [hst] at h
    dsimp only at h
    have hss : s'.status = s.status :=
      (congrArg Session.status (Option.some.inj h)).symm
    rw [hss, hst]
    rfl
  case SCHEDULING =>
    rw [hst] at h
    dsimp only at h
    have hss : s'.status = s.status :=
      (congrArg Session.status (Option.some.inj h)).symm
    rw [hss, hst]
    rfl
  case STOPPING =>
    rw [hst] at h
    dsimp only at h
    exact absurd h (by simp)
  case FAILED =>
    rw [hst] at h
    dsimp only at h
    have hss : s'.status = s.status :=
      (congrArg Session.status (Option.some.inj h)).symm
    rw [hss, hst]
    rfl
  case SCHEDULED =>
    rw [hst] at h
    dsimp only at h
    split at h
    · dsimp only at h
      have hss : s'.status = SessionStatus.STARTING :=
        (congrArg Session.status (Option.some.inj h)).symm
      rw [hss]
      rfl
    · have hss : s'.status = s.status :=
        (congrArg Session.status (Option.some.inj h)).symm
      rw [hss, hst]
      rfl
  case GETTING_HOSTNAME =>
    rw [hst] at h
    dsimp only at h
    split at h
    · dsimp only at h
      have hss : s'.status = SessionStatus.STARTING :=
        (congrArg Session.status (Option.some.inj h)).symm
      rw [hss]
      rfl
    · have hss : s'.status = s.status :=
        (congrArg Session.status (Option.some.inj h)).symm
      rw [hss, hst]
      rfl
  case STARTING =>
    rw [hst] at h
    dsimp only at h
    cases hw : env.waitUntilRunning with
    | error e =>
      rw [hw] at h
      dsimp only at h
      have hss : s'.status = s.status :=
        (congrArg Session.status (Option.some.inj h)).symm
      rw [hss, hst]
      rfl
    | ok w =>
      rw [hw] at h
      dsimp only at h
      by_cases hbw : (!w) = true
      · rw [if_pos hbw] at h
        dsimp only at h
        have hss : s'.status = SessionStatus.RUNNING :=
          (congrArg Session.status (Option.some.inj h)).symm
        rw [hss]
        rfl
      · rw [if_neg hbw] at h
        cases hrv : SessionManager.request_vocabulary (some s) env with
        | error e =>
          rw [hrv] at h
          dsimp only at h
          have hss : s'.status = s.status :=
            (congrArg Session.status (Option.some.inj h)).symm
          rw [hss, hst]
          rfl
        | ok pr =>
          obtain ⟨st, store1⟩ := pr
          rw [hrv] at h
          dsimp only at h
          by_cases h200 : (st.1 == 200) = true
          · rw [if_pos h200] at h
            dsimp only at h
            have hss : s'.status = SessionStatus.RUNNING :=
              (congrArg Session.status (Option.some.inj h)).symm
            rw [hss]
            rfl
          · rw [if_neg h200] at h
            by_cases h404 : (st.1 == 404) = true
            · rw [if_pos h404] at h
              dsimp only at h
              rcases observedStep_of_cases s s' store1
                (request_vocabulary_store_cases s env st store1 hrv) h with hq | hq
              · rw [hq, hst]
                rfl
              · rw [hq]
                exact observedStep_stopping _
            · rw [if_neg h404] at h
              dsimp only at h
              rcases observedStep_of_cases s s' store1
                (request_vocabulary_store_cases s env st store1 hrv) h with hq | hq
              · rw [hq, hst]
                rfl
              · rw [hq]
                exact observedStep_stopping _
  case RUNNING =>
    rw [hst] at h
    dsimp only at h
    by_cases hn : env.now > s.valid_until
    · rw [if_pos hn] at h
      cases hrv : SessionManager.request_vocabulary
          (some { s with
            status := SessionStatus.RUNNING
            valid_until := env.now + env.sgs.session_keep_alive_timeout }) env with
      | error e =>
        rw [hrv] at h
        dsimp only at h
        have hss : s'.status = SessionStatus.RUNNING :=
          (congrArg Session.status (Option.some.inj h)).symm
        rw [hss]
        rfl
      | ok pr =>
        obtain ⟨st, store2⟩ := pr
        rw [hrv] at h
        dsimp only at h
        by_cases h200 : (st.1 == 200) = true
        · rw [if_pos h200] at h
          dsimp only at h
          rcases observedStep_of_cases _ s' store2
            (request_vocabulary_store_cases _ env st store2 hrv) h with hq | hq
          · have hq2 : s'.status = SessionStatus.RUNNING := hq
            rw [hq2]
            rfl
          · rw [hq]
            exact observedStep_stopping _
        · rw [if_neg h200] at h
          by_cases h404 : (st.1 == 404) = true
          · rw [if_pos h404] at h
            dsimp only at h
            rcases observedStep_of_cases _ s' store2
              (request_vocabulary_store_cases _ env st store2 hrv) h with hq | hq
            · have hq2 : s'.status = SessionStatus.RUNNING := hq
              rw [hq2]
              rfl
            · rw [hq]
              exact observedStep_stopping _
          · rw [if_neg h404] at h
            dsimp only at h
            have hss : s'.status = SessionStatus.BUSY :=
              (congrArg Session.status (Option.some.inj h)).symm
            rw [hss]
            rfl
    · rw [if_neg hn] at h
      cases hrv : SessionManager.request_vocabulary (some s) env with
      | error e =>
        rw [hrv] at h
        dsimp only at h
        have hss : s'.status = s.status :=
          (congrArg Session.status (Option.some.inj h)).symm
        rw [hss, hst]
        rfl
      | ok pr =>
        obtain ⟨st, store2⟩ := pr
        rw [hrv] at h
        dsimp only at h
        by_cases h200 : (st.1 == 200) = true
        · rw [if_pos h200] at h
          dsimp only at h
          rcases observedStep_of_cases s s' store2
            (request_vocabulary_store_cases s env st store2 hrv) h with hq | hq
          · rw [hq, hst]
            rfl
          · rw [hq]
            exact observedStep_stopping _
        · rw [if_neg h200] at h
          by_cases h404 : (st.1 == 404) = true
          · rw [if_pos h404] at h
            dsimp only at h
            rcases observedStep_of_cases s s' store2
              (request_vocabulary_store_cases s env st store2 hrv) h with hq | hq
            · rw [hq, hst]
              rfl
            · rw [hq]
              exact observedStep_stopping _
          · rw [if_neg h404] at h
            dsimp only at h
            have hss : s'.status = SessionStatus.BUSY :=
              (congrArg Session.status (Option.some.inj h)).symm
            rw [hss]
            rfl
  case BUSY =>
    rw [hst] at h
    dsimp only at h
    cases hrv : SessionManager.request_vocabulary (some s) env with
    | error e =>
      rw [hrv] at h
      dsimp only at h
      have hss : s'.status = s.status :=
        (congrArg Session.status (Option.some.inj h)).symm
      rw [hss, hst]
      rfl
    | ok pr =>
      obtain ⟨st, store1⟩ := pr
      rw [hrv] at h
      dsimp only at h
      by_cases h200 : (st.1 == 200) = true
      · rw [if_pos h200] at h
        dsimp only at h
        have hss : s'.status = SessionStatus.RUNNING :=
          (congrArg Session.status (Option.some.inj h)).symm
        rw [hss]
        rfl
      · rw [if_neg h200] at h
        by_cases h404 : (st.1 == 404) = true
        · rw [if_pos h404] at h
          dsimp only at h
          rcases observedStep_of_cases s s' store1
            (request_vocabulary_store_cases s env st store1 hrv) h with hq | hq
          · rw [hq, hst]
            rfl
          · rw [hq]
            exact observedStep_stopping _
        · rw [if_neg h404] at h
          dsimp only at h
          rcases observedStep_of_cases s s' store1
            (request_vocabulary_store_cases s env st store1 hrv) h with hq | hq
          · rw [hq, hst]
            rfl
          · rw [hq]
            exact observedStep_stopping _

/-- A session in `SCHEDULED` whose hostname is already persisted. -/
def c1Session : Session :=
  { id := "s-c1"
    owner := "eve"
    configuration_id := "rtneuron"
    status := SessionStatus.SCHEDULED
    job_id := some "rtneuron-[42]"
    process_pid := -1
    http_host := "node1"
    http_port := 3000
    created := 0
    valid_until := 1000 }

/-- Probe outcomes for the C1 counterexample (none of them is reached
from the `SCHEDULED` branch). -/
def c1Env : QSEnv :=
  { waitUntilRunning := Except.ok false
    vocab := Except.ok "vocabulary"
    hostnameOut := HostnameOutcome.ret "node1"
    adapters := ⟨Except.ok (200, "ok"), Except.ok (200, "ok"), Except.ok none⟩
    sgs := ⟨0, true, 1000⟩
    now := 0 }

/-- C1 counterexample: on a `SCHEDULED` session whose hostname is
already known, a single `query_status` call persists `STARTING`,
skipping the intermediate `GETTING_HOSTNAME` stage of the claim's
graph — the claim's one-edge-at-a-time relation does not admit this
transition. -/
theorem query_status_skips_getting_hostname :
    c1Session.status = SessionStatus.SCHEDULED ∧
    ((SessionManager.query_status (some c1Session) c1Env).2.map Session.status)
      = some SessionStatus.STARTING ∧
    claimStep SessionStatus.SCHEDULED SessionStatus.STARTING = false := by
  refine ⟨rfl, by decide, by decide⟩

/-- A freshly created session, still `SCHEDULING`, for the C1
witness. -/
def c1wSession : Session :=
  { id := "s-c1w"
    owner := "eve"
    configuration_id := "rtneuron"
    status := SessionStatus.SCHEDULING
    job_id := none
    process_pid := -1
    http_host := ""
    http_port := 0
    created := 0
    valid_until := 1000 }

/-- C1 witness: a status query on a `SCHEDULING` session leaves the
row as it was, which `observedStep` admits. -/
theorem query_status_single_step_witness :
    observedStep c1wSession.status c1wSession.status = true :=
  query_status_single_step c1wSession c1Env c1wSession (by decide)
